import Mathlib

/-!
Shallow embedding of the core logic of `youtube_downloader.py` (Tapir):
the thread-safe `DownloadTracker`, the parallel download coordinator, the
format-selection logic of `download_video`, the worker-count validation of
`main`, the subtitle normalizer `parse_subtitle_to_text`, the timestamp
formatters, `save_transcription`, and the Whisper fallback step of
`transcription_workflow`.

Python strings are modelled as Lean `String`/`List Char` (ASCII whitespace
and digits, which is what every relevant input uses); Python numbers are
modelled as `Int`/`ℚ` with exact arithmetic; the tracker's lock makes each
mutation atomic, so a concurrent history is modelled as the sequence of
atomic operations in completion order, and scheduling nondeterminism as an
arbitrary permutation of the task list.
-/

namespace Tapir

/-! ### DownloadTracker (youtube_downloader.py lines 2016-2053)

Each method body runs entirely under `self.lock`, so a concurrent execution
is a linearization: a list of atomic `add_result` calls. -/

structure DownloadResult where
  url : String
  success : Bool
  message : String
deriving DecidableEq, Repr

structure DownloadTracker where
  completed : Int
  failed : Int
  total : Int
  results : List DownloadResult
deriving DecidableEq, Repr

def DownloadTracker.init : DownloadTracker :=
  { completed := 0, failed := 0, total := 0, results := [] }

/-- `DownloadTracker.add_result`: increments `completed`, increments
`failed` iff the download did not succeed, and appends the result record. -/
def add_result (t : DownloadTracker) (url : String) (success : Bool)
    (message : String) : DownloadTracker :=
  if success then
    { t with completed := t.completed + 1,
             results := t.results ++ [⟨url, true, message⟩] }
  else
    { t with completed := t.completed + 1,
             failed := t.failed + 1,
             results := t.results ++ [⟨url, false, message⟩] }

def set_total (t : DownloadTracker) (total : Int) : DownloadTracker :=
  { t with total := total }

structure TrackerStatus where
  completed : Int
  failed : Int
  total : Int
  success : Int
deriving DecidableEq, Repr

def get_status (t : DownloadTracker) : TrackerStatus :=
  { completed := t.completed, failed := t.failed, total := t.total,
    success := t.completed - t.failed }

def get_results (t : DownloadTracker) : List DownloadResult :=
  t.results

/-- One `record_outcome` call: (url, succeeded, message). -/
abbrev TrackerCall := String × Bool × String

/-- A finite sequence of `add_result` calls, in completion order. -/
def runCalls (t : DownloadTracker) (calls : List TrackerCall) : DownloadTracker :=
  calls.foldl (fun acc c => add_result acc c.1 c.2.1 c.2.2) t

/-! ### Format resolution (`download_video`, lines 850-914)

`download_video` builds `ydl_opts` from the requested format selection and
FFmpeg availability; the special cases are `mp3`, `mp4` and `high`, and all
other selections pass through as the format string.  The printed fallback
messages are modelled as the `warnings` field. -/

structure Postprocessor where
  key : String
  preferredcodec : String
  preferredquality : String
deriving DecidableEq, Repr

structure ResolvedFormatOpts where
  format : String
  postprocessors : Option (List Postprocessor)
  merge_output_format : Option String
  warnings : List String
deriving DecidableEq, Repr

def resolve_format (format_selection : String) (ffmpeg_available : Bool) :
    ResolvedFormatOpts :=
  let base : ResolvedFormatOpts :=
    { format := format_selection, postprocessors := none,
      merge_output_format := none, warnings := [] }
  if format_selection = "mp3" then
    if ffmpeg_available then
      { base with format := "bestaudio/best",
                  postprocessors := some [⟨"FFmpegExtractAudio", "mp3", "192"⟩] }
    else
      { base with format := "bestaudio/best",
                  warnings := ["Error: FFmpeg is required for MP3 conversion. Please install FFmpeg and try again.",
                               "Falling back to best audio format without conversion."] }
  else if format_selection = "mp4" then
    if ffmpeg_available then
      { base with format := "bestvideo[ext=mp4]+bestaudio[ext=m4a]/best[ext=mp4]/best" }
    else
      { base with format := "best[ext=mp4]/best" }
  else if format_selection = "high" then
    if ffmpeg_available then
      { base with format := "bestvideo+bestaudio/best",
                  merge_output_format := some "mp4" }
    else
      { base with format := "best",
                  warnings := ["Error: FFmpeg is required for high quality downloads (to merge video and audio).",
                               "Falling back to best available combined format."] }
  else base

/-! ### Parallel coordinator (`download_video_parallel`, `parallel_download_workflow`)

A single task's download attempt either returns `(output_path, success)` or
raises; `download_video_parallel` converts each case into a tracked result.
The `Except` value is the outcome of the wrapped `download_video` call. -/

abbrev DlOutcome := Except String (String × Bool)

abbrev DlTask := String × DlOutcome

def outcomeSuccess : DlOutcome → Bool
  | .ok (_, s) => s
  | .error _ => false

def outcomeMessage : DlOutcome → String
  | .ok (p, true) => "Downloaded to " ++ p
  | .ok (_, false) => "Failed to download"
  | .error e => "Error: " ++ e

/-- `download_video_parallel` (lines 2112-2143): records the outcome in the
tracker and returns `(url, success, message)`; an exception from the
attempt is converted into a failed result instead of escaping. -/
def download_video_parallel (tracker : DownloadTracker) (url : String)
    (outcome : DlOutcome) : DownloadTracker × (String × Bool × String) :=
  match outcome with
  | .ok (output_path, true) =>
    let message := "Downloaded to " ++ output_path
    (add_result tracker url true message, (url, true, message))
  | .ok (_, false) =>
    let message := "Failed to download"
    (add_result tracker url false message, (url, false, message))
  | .error e =>
    let message := "Error: " ++ e
    (add_result tracker url false message, (url, false, message))

/-- Tasks reporting to the tracker in completion order. -/
def run_tasks (t : DownloadTracker) (order : List DlTask) : DownloadTracker :=
  order.foldl (fun acc task => (download_video_parallel acc task.1 task.2).1) t

structure ParallelRunSummary where
  pool_width : Int
  status : TrackerStatus
  failures : List DownloadResult
deriving Repr

/-- `parallel_download_workflow` (lines 2146-2224): one tracker,
`set_total(len(urls))`, a pool of `max_workers` workers, full join, then the
summary; `order` is the nondeterministic completion order of the tasks. -/
def parallel_download_workflow (tasks : List DlTask) (max_workers : Int)
    (order : List DlTask) : ParallelRunSummary :=
  let tracker := set_total DownloadTracker.init (tasks.length : Int)
  let final := run_tasks tracker order
  { pool_width := max_workers,
    status := get_status final,
    failures := final.results.filter (fun r => r.success = false) }

/-! ### Worker-count validation (`main`, lines 2550-2556) -/

def MAX_WORKERS_LIMIT : Int := 10

/-- `none` = hard error (`--max-workers` below 1); otherwise the effective
worker count together with whether the clamping warning was printed. -/
def validate_max_workers (w : Int) : Option (Int × Bool) :=
  if w < 1 then none
  else if w > MAX_WORKERS_LIMIT then some (MAX_WORKERS_LIMIT, true)
  else some (w, false)

inductive BulkOutcome where
  | configError (msg : String)
  | ran (summary : ParallelRunSummary)

/-- The bulk-download path of `main`: validate the worker count before any
download is attempted, then hand the clamped width to the workflow. -/
def main_bulk (tasks : List DlTask) (max_workers : Int) (order : List DlTask) :
    BulkOutcome :=
  match validate_max_workers max_workers with
  | none => .configError "Error: --max-workers must be at least 1"
  | some (w, _) =>
    if tasks.length = 0 then
      .configError "Error: No URLs provided for parallel download."
    else
      .ran (parallel_download_workflow tasks w order)

/-! ### Subtitle normalizer (`parse_subtitle_to_text`, lines 1417-1468)

Line-by-line processing over `List Char`; the regex `<[^>]+>` removes, at
each `<`, at least one non-`>` character up to the first following `>`
(and similarly `\{[^}]+\}` for braces).  The removal scans are written with
an explicit fuel argument (`fuel := length`, enough since every step
consumes at least one character) so that they are structural and evaluate
by kernel reduction. -/

def isPySpace (c : Char) : Bool :=
  c = ' ' || c = '\t' || c = '\n' || c = '\r' || c = '\x0b' || c = '\x0c'

/-- Python `str.strip()` (ASCII whitespace). -/
def pyStrip (l : List Char) : List Char :=
  ((l.dropWhile isPySpace).reverse.dropWhile isPySpace).reverse

/-- Python `str.isdigit()` (ASCII digits). -/
def pyIsDigit (l : List Char) : Bool :=
  !l.isEmpty && l.all Char.isDigit

/-- Python `subtitle_content.split('\n')`. -/
def splitLines : List Char → List (List Char)
  | [] => [[]]
  | c :: rest =>
    if c = '\n' then [] :: splitLines rest
    else
      match splitLines rest with
      | [] => [[c]]
      | l :: ls => (c :: l) :: ls

/-- Python `pat in line` (substring test). -/
def hasSub (pat : List Char) : List Char → Bool
  | [] => pat.isEmpty
  | c :: rest => pat.isPrefixOf (c :: rest) || hasSub pat rest

/-- After an opening delimiter: consume one-or-more non-closing characters
followed by the closing delimiter, returning the remainder (the regex body
`[^x]+x`); `none` when the pattern does not match here. -/
def dropDelimGo (close : Char) : List Char → Option (List Char)
  | [] => none
  | c :: rest => if c = close then some rest else dropDelimGo close rest

def dropDelim (close : Char) : List Char → Option (List Char)
  | [] => none
  | c :: rest => if c = close then none else dropDelimGo close rest

/-- `re.sub(r'<[^>]+>', '', line)` and `re.sub(r'\{[^}]+\}', '', line)`:
left-to-right non-overlapping removal. -/
def stripDelimF (opening close : Char) : Nat → List Char → List Char
  | 0, l => l
  | _ + 1, [] => []
  | fuel + 1, c :: rest =>
    if c = opening then
      match dropDelim close rest with
      | some rest2 => stripDelimF opening close fuel rest2
      | none => c :: stripDelimF opening close fuel rest
    else c :: stripDelimF opening close fuel rest

def stripTags (l : List Char) : List Char :=
  stripDelimF '<' '>' l.length l

def stripBraces (l : List Char) : List Char :=
  stripDelimF '{' '}' l.length l

/-- The body of the per-line loop: `some cleaned` when the line survives
(and is appended to `text_lines`), `none` when it is skipped. -/
def processLine (raw : List Char) : Option (List Char) :=
  let line := pyStrip raw
  if line.isEmpty then none
  else if pyIsDigit line then none
  else if "WEBVTT".data.isPrefixOf line || "Kind:".data.isPrefixOf line
       || "Language:".data.isPrefixOf line then none
  else if hasSub "-->".data line then none
  else if "NOTE".data.isPrefixOf line || "STYLE".data.isPrefixOf line then none
  else
    let cleaned := pyStrip (stripBraces (stripTags line))
    if cleaned.isEmpty then none else some cleaned

/-- Collapse immediately-repeated identical lines to one occurrence. -/
def dedupConsecutive : List (List Char) → List (List Char)
  | [] => []
  | [x] => [x]
  | x :: y :: rest =>
    if x = y then dedupConsecutive (y :: rest)
    else x :: dedupConsecutive (y :: rest)

/-- Python `' '.join(deduplicated)`. -/
def joinWithSpaces : List (List Char) → List Char
  | [] => []
  | [x] => x
  | x :: y :: rest => x ++ ' ' :: joinWithSpaces (y :: rest)

def parse_subtitle_to_text (subtitle_content : String) : String :=
  String.mk (joinWithSpaces (dedupConsecutive
    ((splitLines subtitle_content.data).filterMap processLine)))

/-! ### Timestamp formatters (lines 1471-1486)

Python's real arithmetic is modelled exactly over `ℚ`; `//` is floor
division, `%` the matching modulus, and `int()` truncates toward zero. -/

def pyMod (a b : ℚ) : ℚ := a - b * ⌊a / b⌋

def pyTrunc (q : ℚ) : Int := if q < 0 then ⌈q⌉ else ⌊q⌋

def tsHours (seconds : ℚ) : Int := ⌊seconds / 3600⌋

def tsMinutes (seconds : ℚ) : Int := ⌊pyMod seconds 3600 / 60⌋

def tsSecs (seconds : ℚ) : Int := pyTrunc (pyMod seconds 60)

def tsMillis (seconds : ℚ) : Int := pyTrunc (pyMod seconds 1 * 1000)

/-- Python `f"{n:0wd}"` for the relevant (non-negative) components:
decimal digits left-padded with zeros to width `w`, never truncated. -/
def padIntStr (w : Nat) (n : Int) : String :=
  let t := toString n
  if t.length < w then String.mk (List.replicate (w - t.length) '0') ++ t else t

def format_timestamp_srt (seconds : ℚ) : String :=
  padIntStr 2 (tsHours seconds) ++ ":" ++ padIntStr 2 (tsMinutes seconds)
    ++ ":" ++ padIntStr 2 (tsSecs seconds) ++ "," ++ padIntStr 3 (tsMillis seconds)

def format_timestamp_vtt (seconds : ℚ) : String :=
  padIntStr 2 (tsHours seconds) ++ ":" ++ padIntStr 2 (tsMinutes seconds)
    ++ ":" ++ padIntStr 2 (tsSecs seconds) ++ "." ++ padIntStr 3 (tsMillis seconds)

/-! ### Transcription persistence (`save_transcription`, lines 1489-1541)

Modelled as the file content written for each output format; `segments`
follows Python truthiness (`None` and `[]` both take the no-segments
branch). -/

def TRANSCRIPTION_FORMATS : List String := ["txt", "srt", "vtt"]

structure TranscriptSegment where
  start : ℚ
  stop : ℚ
  text : String
deriving DecidableEq, Repr

def segmentsTruthy : Option (List TranscriptSegment) → Bool
  | some (_ :: _) => true
  | _ => false

def pyStripStr (s : String) : String := String.mk (pyStrip s.data)

def srtBlocks (i : Nat) : List TranscriptSegment → String
  | [] => ""
  | seg :: rest =>
    toString i ++ "\n" ++ format_timestamp_srt seg.start ++ " --> "
      ++ format_timestamp_srt seg.stop ++ "\n" ++ pyStripStr seg.text ++ "\n\n"
      ++ srtBlocks (i + 1) rest

def vttBlocks : List TranscriptSegment → String
  | [] => ""
  | seg :: rest =>
    format_timestamp_vtt seg.start ++ " --> " ++ format_timestamp_vtt seg.stop
      ++ "\n" ++ pyStripStr seg.text ++ "\n\n" ++ vttBlocks rest

/-- The content `save_transcription` writes to the output file. -/
def save_transcription_content (text : String)
    (segments : Option (List TranscriptSegment)) (output_format : String) :
    String :=
  if output_format = "txt" then text
  else if output_format = "srt" then
    if segmentsTruthy segments then srtBlocks 1 (segments.getD [])
    else "1\n00:00:00,000 --> 99:59:59,999\n" ++ text ++ "\n\n"
  else if output_format = "vtt" then
    "WEBVTT\n\n" ++
      (if segmentsTruthy segments then vttBlocks (segments.getD [])
       else "00:00:00.000 --> 99:59:59.999\n" ++ text ++ "\n\n")
  else ""

/-- `transcription_workflow` lines 1809-1810: the additional-formats prompt
(`remaining_formats and transcription_segments`). -/
def offerAdditionalFormats (chosen : String)
    (segments : Option (List TranscriptSegment)) : Bool :=
  !(TRANSCRIPTION_FORMATS.filter (· != chosen)).isEmpty && segmentsTruthy segments

/-! ### Whisper fallback of `transcription_workflow` (lines 1728-1773)

The URL path when no subtitle text was chosen: check Whisper and FFmpeg,
select a model, download the audio, transcribe, and — only after a
successful transcription — `os.remove(audio_path)`.  Each early `return`
is one of the `⟨[], none⟩` outcomes; `deleted` records the files removed. -/

structure WhisperOutput where
  text : String
  segments : List TranscriptSegment
deriving DecidableEq, Repr

structure UrlWhisperStep where
  deleted : List String
  transcription : Option WhisperOutput
deriving DecidableEq, Repr

def url_whisper_step (whisper_available ffmpeg_available : Bool)
    (model_size : Option String) (audio_path : Option String)
    (whisper_result : Option WhisperOutput) : UrlWhisperStep :=
  if whisper_available = false then ⟨[], none⟩
  else if ffmpeg_available = false then ⟨[], none⟩
  else
    match model_size with
    | none => ⟨[], none⟩
    | some _ =>
      match audio_path with
      | none => ⟨[], none⟩
      | some p =>
        match whisper_result with
        | none => ⟨[], none⟩
        | some r => ⟨[p], some r⟩

/-! ## Helper lemmas -/

theorem add_result_completed (t : DownloadTracker) (u : String) (s : Bool)
    (m : String) : (add_result t u s m).completed = t.completed + 1 := by
  cases s <;> simp [add_result]

theorem add_result_failed (t : DownloadTracker) (u : String) (s : Bool)
    (m : String) :
    (add_result t u s m).failed = t.failed + (if s then 0 else 1) := by
  cases s <;> simp [add_result]

theorem add_result_total (t : DownloadTracker) (u : String) (s : Bool)
    (m : String) : (add_result t u s m).total = t.total := by
  cases s <;> simp [add_result]

theorem add_result_results (t : DownloadTracker) (u : String) (s : Bool)
    (m : String) :
    (add_result t u s m).results = t.results ++ [⟨u, s, m⟩] := by
  cases s <;> simp [add_result]

theorem runCalls_cons (t : DownloadTracker) (c : TrackerCall)
    (calls : List TrackerCall) :
    runCalls t (c :: calls) = runCalls (add_result t c.1 c.2.1 c.2.2) calls := by
  simp [runCalls]

theorem runCalls_append (t : DownloadTracker) (l1 l2 : List TrackerCall) :
    runCalls t (l1 ++ l2) = runCalls (runCalls t l1) l2 := by
  simp [runCalls, List.foldl_append]

theorem runCalls_completed (calls : List TrackerCall) (t : DownloadTracker) :
    (runCalls t calls).completed = t.completed + calls.length := by
  induction calls generalizing t with
  | nil => simp [runCalls]
  | cons c cs ih =>
    rw [runCalls_cons, ih, add_result_completed]
    push_cast [List.length_cons]
    ring

theorem runCalls_failed (calls : List TrackerCall) (t : DownloadTracker) :
    (runCalls t calls).failed
      = t.failed + ((calls.filter fun c => !c.2.1).length : Int) := by
  induction calls generalizing t with
  | nil => simp [runCalls]
  | cons c cs ih =>
    rw [runCalls_cons, ih, add_result_failed]
    cases hc : c.2.1
    · simp only [List.filter_cons, hc, Bool.not_false, if_pos, List.length_cons,
        if_neg, Bool.false_eq_true, not_false_iff, ite_false, ite_true]
      push_cast
      ring
    · simp [List.filter_cons, hc]

theorem runCalls_total (calls : List TrackerCall) (t : DownloadTracker) :
    (runCalls t calls).total = t.total := by
  induction calls generalizing t with
  | nil => simp [runCalls]
  | cons c cs ih => rw [runCalls_cons, ih, add_result_total]

theorem runCalls_results (calls : List TrackerCall) (t : DownloadTracker) :
    (runCalls t calls).results
      = t.results ++ calls.map (fun c => ⟨c.1, c.2.1, c.2.2⟩) := by
  induction calls generalizing t with
  | nil => simp [runCalls]
  | cons c cs ih =>
    rw [runCalls_cons, ih, add_result_results]
    simp

theorem download_video_parallel_eq (t : DownloadTracker) (u : String)
    (o : DlOutcome) :
    download_video_parallel t u o
      = (add_result t u (outcomeSuccess o) (outcomeMessage o),
         (u, outcomeSuccess o, outcomeMessage o)) := by
  rcases o with e | ⟨p, s⟩
  · rfl
  · cases s <;> rfl

/-- Tasks reporting in completion order are exactly tracker calls. -/
theorem run_tasks_eq_runCalls (order : List DlTask) (t : DownloadTracker) :
    run_tasks t order
      = runCalls t (order.map fun task =>
          (task.1, outcomeSuccess task.2, outcomeMessage task.2)) := by
  induction order generalizing t with
  | nil => rfl
  | cons task rest ih =>
    show run_tasks ((download_video_parallel t task.1 task.2).1) rest = _
    rw [download_video_parallel_eq, ih, List.map_cons, runCalls_cons]

theorem set_total_fields (t : DownloadTracker) (n : Int) :
    (set_total t n).completed = t.completed ∧ (set_total t n).failed = t.failed
      ∧ (set_total t n).total = n ∧ (set_total t n).results = t.results := by
  simp [set_total]

/-- `pyMod a b` lies in `[0, b)` for positive `b`. -/
theorem pyMod_nonneg (a b : ℚ) (hb : 0 < b) : 0 ≤ pyMod a b := by
  have h : (⌊a / b⌋ : ℚ) ≤ a / b := Int.floor_le _
  have := mul_le_mul_of_nonneg_left h (le_of_lt hb)
  rw [mul_div_cancel₀ _ (ne_of_gt hb)] at this
  simpa [pyMod] using this

theorem pyMod_lt (a b : ℚ) (hb : 0 < b) : pyMod a b < b := by
  have h : a / b < ⌊a / b⌋ + 1 := Int.lt_floor_add_one _
  have := mul_lt_mul_of_pos_left h hb
  rw [mul_div_cancel₀ _ (ne_of_gt hb)] at this
  have hgoal : a - b * ⌊a / b⌋ < b := by nlinarith
  simpa [pyMod] using hgoal

theorem pyTrunc_of_nonneg (q : ℚ) (h : 0 ≤ q) : pyTrunc q = ⌊q⌋ := by
  simp [pyTrunc, not_lt.mpr h]

theorem pyMod_one (a : ℚ) : pyMod a 1 = Int.fract a := by
  rw [pyMod, Int.fract, div_one, one_mul]

set_option maxRecDepth 4000 in
theorem padIntStr_len_two (n : Int) (h0 : 0 ≤ n) (h : n < 100) :
    (padIntStr 2 n).length = 2 := by
  have hball : ∀ k : Nat, k < 100 → (padIntStr 2 (Int.ofNat k)).length = 2 := by
    decide
  obtain ⟨k, rfl⟩ := Int.eq_ofNat_of_zero_le h0
  exact hball k (by exact_mod_cast h)

set_option maxRecDepth 4000 in
theorem padIntStr_len_three (n : Int) (h0 : 0 ≤ n) (h : n < 1000) :
    (padIntStr 3 n).length = 3 := by
  have hball : ∀ k : Nat, k < 1000 → (padIntStr 3 (Int.ofNat k)).length = 3 := by
    decide
  obtain ⟨k, rfl⟩ := Int.eq_ofNat_of_zero_le h0
  exact hball k (by exact_mod_cast h)

theorem padIntStr_len_ge (w : Nat) (n : Int) : w ≤ (padIntStr w n).length := by
  rw [padIntStr]
  split_ifs with h
  · rw [String.length_append, String.length_mk, List.length_replicate]
    omega
  · omega

theorem format_srt_components (q : ℚ) (h m s ms : Int)
    (hh : tsHours q = h) (hm : tsMinutes q = m) (hs : tsSecs q = s)
    (hms : tsMillis q = ms) :
    format_timestamp_srt q
      = padIntStr 2 h ++ ":" ++ padIntStr 2 m ++ ":" ++ padIntStr 2 s ++ ","
        ++ padIntStr 3 ms := by
  rw [format_timestamp_srt, hh, hm, hs, hms]

theorem format_vtt_components (q : ℚ) (h m s ms : Int)
    (hh : tsHours q = h) (hm : tsMinutes q = m) (hs : tsSecs q = s)
    (hms : tsMillis q = ms) :
    format_timestamp_vtt q
      = padIntStr 2 h ++ ":" ++ padIntStr 2 m ++ ":" ++ padIntStr 2 s ++ "."
        ++ padIntStr 3 ms := by
  rw [format_timestamp_vtt, hh, hm, hs, hms]

theorem tsHours_whole_hours (H : Nat) : tsHours (3600 * (H : ℚ)) = (H : Int) := by
  rw [tsHours, mul_div_cancel_left₀ _ (by norm_num : (3600 : ℚ) ≠ 0)]
  exact Int.floor_natCast H

/-! ## Claims -/

/-- Claim C1: for every finite sequence of `record_outcome` (`add_result`)
calls performed on a fresh `DownloadTracker`, after all calls complete
`completed` equals the number of calls, `failed` equals the number of calls
with `succeeded = false`, `len(results) == completed`, and the snapshot's
`success` field equals `completed - failed`; at every observable point
(i.e. after every prefix of the linearized call sequence)
`failed <= completed` and both counters are monotonically non-decreasing. -/
theorem c1_tracker_invariants (calls : List TrackerCall) :
    (runCalls DownloadTracker.init calls).completed = (calls.length : Int)
    ∧ (runCalls DownloadTracker.init calls).failed
        = (((calls.filter fun c => !c.2.1).length : Nat) : Int)
    ∧ (((runCalls DownloadTracker.init calls).results.length : Nat) : Int)
        = (runCalls DownloadTracker.init calls).completed
    ∧ (get_status (runCalls DownloadTracker.init calls)).success
        = (runCalls DownloadTracker.init calls).completed
          - (runCalls DownloadTracker.init calls).failed
    ∧ ∀ pre suf, calls = pre ++ suf →
        (runCalls DownloadTracker.init pre).failed
            ≤ (runCalls DownloadTracker.init pre).completed
        ∧ (runCalls DownloadTracker.init pre).completed
            ≤ (runCalls DownloadTracker.init calls).completed
        ∧ (runCalls DownloadTracker.init pre).failed
            ≤ (runCalls DownloadTracker.init calls).failed := by
  refine ⟨?_, ?_, ?_, ?_, ?_⟩
  · rw [runCalls_completed]; simp [DownloadTracker.init]
  · rw [runCalls_failed]; simp [DownloadTracker.init]
  · rw [runCalls_results, runCalls_completed]; simp [DownloadTracker.init]
  · simp [get_status]
  · rintro pre suf rfl
    refine ⟨?_, ?_, ?_⟩
    · rw [runCalls_failed, runCalls_completed]
      simp only [DownloadTracker.init, zero_add]
      exact_mod_cast List.length_filter_le _ _
    · rw [runCalls_completed, runCalls_completed]
      simp only [DownloadTracker.init, zero_add, List.length_append]
      push_cast
      omega
    · rw [runCalls_failed, runCalls_failed]
      simp only [DownloadTracker.init, zero_add, List.filter_append,
        List.length_append]
      push_cast
      omega

theorem c1_tracker_invariants_witness :
    (runCalls DownloadTracker.init [("a", true, "ok"), ("b", false, "bad")]).completed = 2
    ∧ (runCalls DownloadTracker.init [("a", true, "ok")]).failed
        ≤ (runCalls DownloadTracker.init [("a", true, "ok")]).completed := by
  have h := c1_tracker_invariants [("a", true, "ok"), ("b", false, "bad")]
  exact ⟨by simpa using h.1,
    (h.2.2.2.2 [("a", true, "ok")] [("b", false, "bad")] rfl).1⟩

/-- Claim C3: for every format intent in
{best, bestvideo, bestaudio, high, mp3, mp4, opaque format-ID} crossed with
`transcoder_available ∈ {true, false}`, format resolution returns a resolved
format (the total function `resolve_format`), and whenever the transcoder is
unavailable the resolved download options contain no post-processing
directive (`postprocessors` absent, and no merge directive either). -/
theorem c3_format_resolution_totality :
    (∀ sel : String, (resolve_format sel false).postprocessors = none
        ∧ (resolve_format sel false).merge_output_format = none)
    ∧ (resolve_format "best" true).format = "best"
    ∧ (resolve_format "best" false).format = "best"
    ∧ (resolve_format "bestvideo" true).format = "bestvideo"
    ∧ (resolve_format "bestvideo" false).format = "bestvideo"
    ∧ (resolve_format "bestaudio" true).format = "bestaudio"
    ∧ (resolve_format "bestaudio" false).format = "bestaudio"
    ∧ (resolve_format "mp3" true).format = "bestaudio/best"
    ∧ (resolve_format "mp3" true).postprocessors
        = some [⟨"FFmpegExtractAudio", "mp3", "192"⟩]
    ∧ (resolve_format "mp3" false).format = "bestaudio/best"
    ∧ (resolve_format "mp3" false).warnings ≠ []
    ∧ (resolve_format "mp4" true).format
        = "bestvideo[ext=mp4]+bestaudio[ext=m4a]/best[ext=mp4]/best"
    ∧ (resolve_format "mp4" false).format = "best[ext=mp4]/best"
    ∧ (resolve_format "high" true).format = "bestvideo+bestaudio/best"
    ∧ (resolve_format "high" true).merge_output_format = some "mp4"
    ∧ (resolve_format "high" false).format = "best"
    ∧ (resolve_format "high" false).warnings ≠ []
    ∧ (resolve_format "137" true).format = "137"
    ∧ (resolve_format "137" false).format = "137" := by
  refine ⟨fun sel => ?_, ?_, ?_, ?_, ?_, ?_, ?_, ?_, ?_, ?_, ?_, ?_, ?_, ?_,
    ?_, ?_, ?_, ?_, ?_⟩
  · simp only [resolve_format]
    split_ifs <;> simp_all
  all_goals decide

/-- Claim C4: a requested worker count below 1 terminates the bulk run with
a configuration error before any download is attempted; a count above 10 is
replaced by 10 with a warning; every validated worker count lies in
`[1, 10]`, so the pool the coordinator creates never runs more than 10
concurrent download tasks regardless of how many URLs were collected. -/
theorem c4_worker_count_validation :
    (∀ (w : Int) (tasks order : List DlTask), w < 1 →
        main_bulk tasks w order
          = .configError "Error: --max-workers must be at least 1")
    ∧ (∀ w : Int, 10 < w → validate_max_workers w = some (10, true))
    ∧ (∀ (w n : Int) (warned : Bool),
        validate_max_workers w = some (n, warned) → 1 ≤ n ∧ n ≤ 10)
    ∧ (∀ (tasks : List DlTask) (w : Int) (order : List DlTask)
        (s : ParallelRunSummary),
        main_bulk tasks w order = .ran s → s.pool_width ≤ 10) := by
  have hval : ∀ (w n : Int) (warned : Bool),
      validate_max_workers w = some (n, warned) → 1 ≤ n ∧ n ≤ 10 := by
    intro w n warned h
    by_cases h1 : w < 1
    · simp [validate_max_workers, h1] at h
    · by_cases h2 : w > MAX_WORKERS_LIMIT
      · simp [validate_max_workers, h1, h2] at h
        obtain ⟨h3, _⟩ := h
        have hM : MAX_WORKERS_LIMIT = (10 : Int) := rfl
        omega
      · simp [validate_max_workers, h1, h2] at h
        obtain ⟨h3, _⟩ := h
        have hM : MAX_WORKERS_LIMIT = (10 : Int) := rfl
        omega
  refine ⟨?_, ?_, hval, ?_⟩
  · intro w tasks order hw
    simp [main_bulk, validate_max_workers, hw]
  · intro w hw
    simp only [validate_max_workers, MAX_WORKERS_LIMIT]
    rw [if_neg (by omega), if_pos (by omega)]
  · intro tasks w order s h
    rcases hv : validate_max_workers w with _ | ⟨n, warned⟩
    · simp [main_bulk, hv] at h
    · simp only [main_bulk, hv] at h
      have hn := (hval w n warned hv).2
      by_cases hlen0 : tasks.length = 0
      · rw [if_pos hlen0] at h
        exact BulkOutcome.noConfusion h
      · rw [if_neg hlen0] at h
        injection h with h'
        subst h'
        exact hn

theorem c4_worker_count_validation_witness :
    main_bulk [] 0 [] = .configError "Error: --max-workers must be at least 1"
    ∧ validate_max_workers 20 = some (10, true)
    ∧ (1 ≤ (10 : Int) ∧ (10 : Int) ≤ 10)
    ∧ (parallel_download_workflow [("u", .ok ("p", true))] 10
        [("u", .ok ("p", true))]).pool_width ≤ 10 := by
  refine ⟨c4_worker_count_validation.1 0 [] [] (by norm_num),
    c4_worker_count_validation.2.1 20 (by norm_num),
    c4_worker_count_validation.2.2.1 20 10 true
      (c4_worker_count_validation.2.1 20 (by norm_num)),
    c4_worker_count_validation.2.2.2 [("u", .ok ("p", true))] 20
      [("u", .ok ("p", true))] _ rfl⟩

/-- Claim C5: for a batch of 3 URLs where the single-item download fails for
exactly one URL (either by returning failure or by raising an exception) and
succeeds for the other two, every per-item exception is converted into a
failed result recorded in the tracker instead of aborting the batch, and the
summary computed after all tasks complete — in any completion order, hence
for every worker count in {1, 2, 3} — reports total=3, succeeded=2, failed=1
with the failing source and its message listed. -/
theorem c5_coordinator_isolation (u1 u2 u3 p1 p3 : String) (fo : DlOutcome)
    (W : Int) (order : List DlTask)
    (hfail : outcomeSuccess fo = false)
    (_hW1 : 1 ≤ W) (_hW2 : W ≤ 3)
    (hperm : order.Perm [(u1, .ok (p1, true)), (u2, fo), (u3, .ok (p3, true))]) :
    (parallel_download_workflow
        [(u1, .ok (p1, true)), (u2, fo), (u3, .ok (p3, true))] W order).status.total = 3
    ∧ (parallel_download_workflow
        [(u1, .ok (p1, true)), (u2, fo), (u3, .ok (p3, true))] W order).status.completed = 3
    ∧ (parallel_download_workflow
        [(u1, .ok (p1, true)), (u2, fo), (u3, .ok (p3, true))] W order).status.success = 2
    ∧ (parallel_download_workflow
        [(u1, .ok (p1, true)), (u2, fo), (u3, .ok (p3, true))] W order).status.failed = 1
    ∧ (parallel_download_workflow
        [(u1, .ok (p1, true)), (u2, fo), (u3, .ok (p3, true))] W order).failures
        = [⟨u2, false, outcomeMessage fo⟩] := by
  set tasks : List DlTask :=
    [(u1, .ok (p1, true)), (u2, fo), (u3, .ok (p3, true))] with htasks
  have hlen : order.length = 3 := by
    rw [hperm.length_eq, htasks]
    rfl
  have hcall : ∀ task : DlTask,
      (fun task : DlTask =>
        (task.1, outcomeSuccess task.2, outcomeMessage task.2)) task
      = (task.1, outcomeSuccess task.2, outcomeMessage task.2) := fun _ => rfl
  have hmapperm :
      (order.map fun task : DlTask =>
        (task.1, outcomeSuccess task.2, outcomeMessage task.2)).Perm
      (tasks.map fun task : DlTask =>
        (task.1, outcomeSuccess task.2, outcomeMessage task.2)) :=
    hperm.map _
  have hfilter :
      ((tasks.map fun task : DlTask =>
          (task.1, outcomeSuccess task.2, outcomeMessage task.2)).filter
        fun c => !c.2.1)
      = [(u2, false, outcomeMessage fo)] := by
    rw [htasks]
    simp only [List.map_cons, List.map_nil, hfail]
    simp [List.filter_cons, outcomeSuccess]
  have hcompleted :
      (run_tasks (set_total DownloadTracker.init (tasks.length : Int)) order).completed
        = 3 := by
    rw [run_tasks_eq_runCalls, runCalls_completed]
    simp [set_total, DownloadTracker.init, hlen]
  have hfailed :
      (run_tasks (set_total DownloadTracker.init (tasks.length : Int)) order).failed
        = 1 := by
    rw [run_tasks_eq_runCalls, runCalls_failed]
    have := (hmapperm.filter (fun c => !c.2.1)).length_eq
    rw [hfilter] at this
    simp [set_total, DownloadTracker.init, this]
  have htotal :
      (run_tasks (set_total DownloadTracker.init (tasks.length : Int)) order).total
        = 3 := by
    rw [run_tasks_eq_runCalls, runCalls_total]
    simp [set_total, htasks]
  have hresults :
      (run_tasks (set_total DownloadTracker.init (tasks.length : Int)) order).results
        = order.map fun task : DlTask =>
            ⟨task.1, outcomeSuccess task.2, outcomeMessage task.2⟩ := by
    rw [run_tasks_eq_runCalls, runCalls_results]
    simp [set_total, DownloadTracker.init, List.map_map, Function.comp]
  have hfailures :
      ((run_tasks (set_total DownloadTracker.init (tasks.length : Int)) order).results.filter
          fun r => r.success = false)
        = [⟨u2, false, outcomeMessage fo⟩] := by
    rw [hresults]
    have hp : ((order.map fun task : DlTask =>
          (⟨task.1, outcomeSuccess task.2, outcomeMessage task.2⟩ : DownloadResult)).filter
        fun r => r.success = false).Perm
        (((tasks.map fun task : DlTask =>
          (⟨task.1, outcomeSuccess task.2, outcomeMessage task.2⟩ : DownloadResult))).filter
        fun r => r.success = false) :=
      (hperm.map _).filter _
    have hconc : ((tasks.map fun task : DlTask =>
          (⟨task.1, outcomeSuccess task.2, outcomeMessage task.2⟩ : DownloadResult)).filter
        fun r => r.success = false) = [⟨u2, false, outcomeMessage fo⟩] := by
      rw [htasks]
      simp only [List.map_cons, List.map_nil, hfail]
      simp [List.filter_cons, outcomeSuccess]
    rw [hconc] at hp
    exact List.perm_singleton.mp hp
  refine ⟨?_, ?_, ?_, ?_, ?_⟩
  · simpa [parallel_download_workflow, get_status] using htotal
  · simpa [parallel_download_workflow, get_status] using hcompleted
  · simp [parallel_download_workflow, get_status, hcompleted, hfailed]
  · simpa [parallel_download_workflow, get_status] using hfailed
  · simpa [parallel_download_workflow] using hfailures

theorem c5_coordinator_isolation_witness :
    (parallel_download_workflow
        [("u1", .ok ("p1", true)), ("u2", .error "boom"), ("u3", .ok ("p3", true))] 2
        [("u2", .error "boom"), ("u3", .ok ("p3", true)), ("u1", .ok ("p1", true))]).status.success = 2
    ∧ (parallel_download_workflow
        [("u1", .ok ("p1", true)), ("u2", .error "boom"), ("u3", .ok ("p3", true))] 2
        [("u2", .error "boom"), ("u3", .ok ("p3", true)), ("u1", .ok ("p1", true))]).failures
        = [⟨"u2", false, "Error: boom"⟩] := by
  have h := c5_coordinator_isolation "u1" "u2" "u3" "p1" "p3" (.error "boom") 2
    [("u2", .error "boom"), ("u3", .ok ("p3", true)), ("u1", .ok ("p1", true))]
    rfl (by norm_num) (by norm_num)
    ((List.Perm.cons ("u2", Except.error "boom")
        (List.Perm.swap ("u1", Except.ok ("p1", true))
          ("u3", Except.ok ("p3", true)) [])).trans
      (List.Perm.swap ("u1", Except.ok ("p1", true))
        ("u2", Except.error "boom") [("u3", Except.ok ("p3", true))]))
  exact ⟨h.2.2.1, h.2.2.2.2⟩

/-- Claim C2 (counterexample): in the URL transcription path that falls back
to the speech-to-text engine, when the transcription itself fails
(`transcribe_with_whisper` returns `None`) the workflow returns early and
the temporary downloaded audio file is NOT deleted — contradicting the
claimed guaranteed removal on all exit paths. -/
theorem c2_cleanup_counterexample :
    (url_whisper_step true true (some "base") (some "audio.webm") none).transcription
        = none
    ∧ (url_whisper_step true true (some "base") (some "audio.webm") none).deleted
        = []
    ∧ ¬ "audio.webm" ∈
        (url_whisper_step true true (some "base") (some "audio.webm") none).deleted := by
  refine ⟨rfl, rfl, ?_⟩
  simp [url_whisper_step]

/-- Claim C2 (amended): the temporary downloaded audio file is deleted only
on the success path — after a successful transcription `os.remove` runs and
the file is removed, but when transcription fails the workflow returns
before the cleanup and the file is left behind. -/
theorem c2_cleanup_amended (p m : String) (wo : WhisperOutput) :
    (url_whisper_step true true (some m) (some p) (some wo)).deleted = [p]
    ∧ (url_whisper_step true true (some m) (some p) (some wo)).transcription
        = some wo
    ∧ (url_whisper_step true true (some m) (some p) none).deleted = [] :=
  ⟨rfl, rfl, rfl⟩

/-- Claim C6: on raw subtitle input containing a WEBVTT header block, a
purely numeric sequence line "1", a timing line
"00:00:01,000 --> 00:00:02,000", the markup-tagged line "<b>Hello</b> world"
immediately followed by the identical caption line without markup, and a
curly-brace positioning line, `parse_subtitle_to_text` discards the blank /
digits-only / arrow / header lines, strips angle-bracket and curly-brace
markup before collapsing consecutive duplicates (so the two lines differing
only by markup collapse to one), and joins the survivors with single
spaces, producing exactly "Hello world". -/
theorem c6_subtitle_normalization :
    parse_subtitle_to_text
        "WEBVTT\nKind: captions\nLanguage: en\n\n1\n00:00:01,000 --> 00:00:02,000\n<b>Hello</b> world\nHello world\n{align:center}\n"
      = "Hello world" := by
  decide

/-- Claim C7 (counterexample): subtitle normalization is NOT idempotent.
`parse_subtitle_to_text "<b>1</b>" = "1"` (the markup is stripped and the
remaining text kept), but re-running it on that output discards the line as
a digits-only sequence line, yielding `""`. -/
theorem c7_not_idempotent_counterexample :
    parse_subtitle_to_text (parse_subtitle_to_text "<b>1</b>")
      ≠ parse_subtitle_to_text "<b>1</b>" := by
  decide

/-- Claim C7 (amended): normalization is not idempotent in general; it is
idempotent on every input whose output survives the line filters unchanged:
if processing the output string as input keeps it as the single surviving
line, then re-running `parse_subtitle_to_text` on its own output is a
no-op.  (A second pass can alter an output that is digits-only,
header-prefixed, contains an arrow token, or re-assembles markup across
joined lines.) -/
theorem c7_conditional_idempotence (s : String)
    (h : (splitLines (parse_subtitle_to_text s).data).filterMap processLine
        = [(parse_subtitle_to_text s).data]) :
    parse_subtitle_to_text (parse_subtitle_to_text s)
      = parse_subtitle_to_text s := by
  have hdef : parse_subtitle_to_text (parse_subtitle_to_text s)
      = String.mk (joinWithSpaces (dedupConsecutive
          ((splitLines (parse_subtitle_to_text s).data).filterMap processLine))) :=
    rfl
  rw [hdef, h]
  exact rfl

theorem c7_conditional_idempotence_witness :
    parse_subtitle_to_text (parse_subtitle_to_text "hello\nworld")
      = parse_subtitle_to_text "hello\nworld" :=
  c7_conditional_idempotence "hello\nworld" (by decide)

/-- Claim C8: the SRT serialization is `HH:MM:SS,mmm` (comma millisecond
separator) and the VTT serialization `HH:MM:SS.mmm` (dot separator), with
hours/minutes/seconds zero-padded to 2 digits and milliseconds to 3 digits,
and the hour field unbounded (neither wrapped at 24 nor truncated at 100+);
formatting 3661.5 seconds yields the comma-form "01:01:01,500" and dot-form
"01:01:01.500", and 360000 seconds (100 hours) keeps its full hour field. -/
theorem c8_timestamp_formats :
    format_timestamp_srt (7323/2) = "01:01:01,500"
    ∧ format_timestamp_vtt (7323/2) = "01:01:01.500"
    ∧ format_timestamp_srt 360000 = "100:00:00,000"
    ∧ format_timestamp_vtt 360000 = "100:00:00.000"
    ∧ (∀ H : Nat, tsHours (3600 * (H : ℚ)) = (H : Int))
    ∧ (∀ q : ℚ, 0 ≤ q →
        0 ≤ tsHours q ∧ tsHours q = ⌊q / 3600⌋
        ∧ 0 ≤ tsMinutes q ∧ tsMinutes q < 60
        ∧ 0 ≤ tsSecs q ∧ tsSecs q < 60
        ∧ 0 ≤ tsMillis q ∧ tsMillis q < 1000
        ∧ (padIntStr 2 (tsMinutes q)).length = 2
        ∧ (padIntStr 2 (tsSecs q)).length = 2
        ∧ (padIntStr 3 (tsMillis q)).length = 3
        ∧ 2 ≤ (padIntStr 2 (tsHours q)).length) := by
  have ha1 : tsHours ((7323:ℚ)/2) = 1 := by norm_num [tsHours]
  have ha2 : tsMinutes ((7323:ℚ)/2) = 1 := by norm_num [tsMinutes, pyMod]
  have ha3 : tsSecs ((7323:ℚ)/2) = 1 := by norm_num [tsSecs, pyMod, pyTrunc]
  have ha4 : tsMillis ((7323:ℚ)/2) = 500 := by
    norm_num [tsMillis, pyMod, pyTrunc]
  have hb1 : tsHours (360000 : ℚ) = 100 := by norm_num [tsHours]
  have hb2 : tsMinutes (360000 : ℚ) = 0 := by norm_num [tsMinutes, pyMod]
  have hb3 : tsSecs (360000 : ℚ) = 0 := by norm_num [tsSecs, pyMod, pyTrunc]
  have hb4 : tsMillis (360000 : ℚ) = 0 := by norm_num [tsMillis, pyMod, pyTrunc]
  refine ⟨?_, ?_, ?_, ?_, tsHours_whole_hours, ?_⟩
  · rw [format_srt_components ((7323:ℚ)/2) 1 1 1 500 ha1 ha2 ha3 ha4]
    decide
  · rw [format_vtt_components ((7323:ℚ)/2) 1 1 1 500 ha1 ha2 ha3 ha4]
    decide
  · rw [format_srt_components (360000 : ℚ) 100 0 0 0 hb1 hb2 hb3 hb4]
    decide
  · rw [format_vtt_components (360000 : ℚ) 100 0 0 0 hb1 hb2 hb3 hb4]
    decide
  · intro q hq
    have h3600 : (0:ℚ) < 3600 := by norm_num
    have h60 : (0:ℚ) < 60 := by norm_num
    have hm0 : 0 ≤ pyMod q 3600 := pyMod_nonneg q 3600 h3600
    have hm1 : pyMod q 3600 < 3600 := pyMod_lt q 3600 h3600
    have hs0 : 0 ≤ pyMod q 60 := pyMod_nonneg q 60 h60
    have hs1 : pyMod q 60 < 60 := pyMod_lt q 60 h60
    have hf0 : 0 ≤ pyMod q 1 := pyMod_nonneg q 1 one_pos
    have hf1 : pyMod q 1 < 1 := pyMod_lt q 1 one_pos
    have hhour0 : 0 ≤ tsHours q :=
      Int.le_floor.mpr (by exact_mod_cast div_nonneg hq (le_of_lt h3600))
    have hmin0 : 0 ≤ tsMinutes q :=
      Int.le_floor.mpr (by exact_mod_cast div_nonneg hm0 (le_of_lt h60))
    have hmin1 : tsMinutes q < 60 := by
      rw [tsMinutes]
      apply Int.floor_lt.mpr
      rw [div_lt_iff₀ h60]
      push_cast
      linarith [hm1]
    have hsec : tsSecs q = ⌊pyMod q 60⌋ := by
      rw [tsSecs]
      exact pyTrunc_of_nonneg _ hs0
    have hsec0 : 0 ≤ tsSecs q := by
      rw [hsec]
      exact Int.le_floor.mpr (by exact_mod_cast hs0)
    have hsec1 : tsSecs q < 60 := by
      rw [hsec]
      exact Int.floor_lt.mpr (by exact_mod_cast hs1)
    have hmsval : tsMillis q = ⌊pyMod q 1 * 1000⌋ := by
      rw [tsMillis]
      exact pyTrunc_of_nonneg _ (mul_nonneg hf0 (by norm_num))
    have hms0 : 0 ≤ tsMillis q := by
      rw [hmsval]
      exact Int.le_floor.mpr (by exact_mod_cast mul_nonneg hf0 (by norm_num))
    have hms1 : tsMillis q < 1000 := by
      rw [hmsval]
      apply Int.floor_lt.mpr
      push_cast
      nlinarith [hf1]
    refine ⟨hhour0, rfl, hmin0, hmin1, hsec0, hsec1, hms0, hms1, ?_, ?_, ?_, ?_⟩
    · exact padIntStr_len_two _ hmin0 (by omega)
    · exact padIntStr_len_two _ hsec0 (by omega)
    · exact padIntStr_len_three _ hms0 (by omega)
    · exact padIntStr_len_ge 2 _

theorem c8_timestamp_formats_witness :
    (0:ℚ) ≤ 7323/2 ∧ 0 ≤ tsMinutes ((7323:ℚ)/2) ∧ tsMinutes ((7323:ℚ)/2) < 60 := by
  have h := c8_timestamp_formats.2.2.2.2.2 ((7323:ℚ)/2) (by norm_num)
  exact ⟨by norm_num, h.2.2.1, h.2.2.2.1⟩

/-- Claim C9 (counterexample): `save_transcription` does produce a timed
subtitle file when segments are absent — for the SRT format it writes a
single dummy cue spanning `00:00:00,000 --> 99:59:59,999` containing the
whole text, so a subtitle-derived (segments-absent) result is not restricted
to plain-text persistence. -/
theorem c9_timed_output_counterexample :
    save_transcription_content "hi" none "srt"
        = "1\n00:00:00,000 --> 99:59:59,999\nhi\n\n"
    ∧ hasSub "-->".data (save_transcription_content "hi" none "srt").data
        = true := by
  decide

/-- Claim C9 (amended): when segments are absent (or the empty list), only
the additional-formats offering is suppressed; the primary requested format
may still be `srt` or `vtt`, in which case the file written consists of one
dummy cue spanning the 00:00:00–99:59:59.999 range holding the full text,
while `txt` persists the text verbatim. -/
theorem c9_segment_gated_formats :
    (∀ fmt, offerAdditionalFormats fmt none = false)
    ∧ (∀ fmt, offerAdditionalFormats fmt (some []) = false)
    ∧ (∀ text, save_transcription_content text none "txt" = text)
    ∧ (∀ text, save_transcription_content text none "srt"
        = "1\n00:00:00,000 --> 99:59:59,999\n" ++ text ++ "\n\n")
    ∧ (∀ text, save_transcription_content text none "vtt"
        = "WEBVTT\n\n" ++ ("00:00:00.000 --> 99:59:59.999\n" ++ text ++ "\n\n")) := by
  refine ⟨fun fmt => ?_, fun fmt => ?_, fun text => rfl, fun text => rfl,
    fun text => rfl⟩
  · simp [offerAdditionalFormats, segmentsTruthy]
  · simp [offerAdditionalFormats, segmentsTruthy]

/-- Claim C10: both timestamp formatters truncate the fractional second
toward zero rather than rounding — for every non-negative seconds value the
milliseconds field is `⌊fract(seconds) * 1000⌋`, and 1.9996 seconds
(= 4999/2500) serializes with a 999-millisecond field, never rounded up to
the next whole second. -/
theorem c10_millis_floor_truncation :
    (∀ q : ℚ, 0 ≤ q → tsMillis q = ⌊Int.fract q * 1000⌋)
    ∧ format_timestamp_srt (4999/2500) = "00:00:01,999"
    ∧ format_timestamp_vtt (4999/2500) = "00:00:01.999" := by
  have h1 : tsHours ((4999:ℚ)/2500) = 0 := by norm_num [tsHours]
  have h2 : tsMinutes ((4999:ℚ)/2500) = 0 := by norm_num [tsMinutes, pyMod]
  have h3 : tsSecs ((4999:ℚ)/2500) = 1 := by norm_num [tsSecs, pyMod, pyTrunc]
  have h4 : tsMillis ((4999:ℚ)/2500) = 999 := by
    norm_num [tsMillis, pyMod, pyTrunc]
  refine ⟨?_, ?_, ?_⟩
  · intro q _
    rw [tsMillis, pyMod_one]
    exact pyTrunc_of_nonneg _ (mul_nonneg (Int.fract_nonneg q) (by norm_num))
  · rw [format_srt_components ((4999:ℚ)/2500) 0 0 1 999 h1 h2 h3 h4]
    decide
  · rw [format_vtt_components ((4999:ℚ)/2500) 0 0 1 999 h1 h2 h3 h4]
    decide

theorem c10_millis_floor_truncation_witness :
    (0:ℚ) ≤ 4999/2500
    ∧ tsMillis ((4999:ℚ)/2500) = ⌊Int.fract ((4999:ℚ)/2500) * 1000⌋ :=
  ⟨by norm_num, c10_millis_floor_truncation.1 ((4999:ℚ)/2500) (by norm_num)⟩

end Tapir
